import Mathlib

/-!
Verification of the SoLoud Nintendo 3DS homebrew output backend
(`src/backend/n3ds_homebrew/soloud_n3ds_homebrew.cpp`, the
`WITH_N3DS_HOMEBREW` branch).

Modelling conventions:
* Pointers are natural-number byte addresses; 0 is the null pointer
  (matching `memset(data, 0, sizeof(*data))`, which zeroes every field).
* The records reachable through `ndspWaveBuf*` pointers live in an
  explicit heap `Heap := Nat -> WaveBuf`.
* Every call the backend makes into an external collaborator (the NDSP
  hardware layer, the linear allocator, the mixer, the thread and
  light-event primitives) is recorded as an `Event` in a trace, in the
  order the source performs the calls.
* The producer loop `n3ds_thread` runs until its `done` flag is observed
  true; the cross-thread flag is modelled by an explicit iteration count:
  `n3ds_thread data h b n` is the heap and trace produced by `n` loop
  iterations starting at buffer index `b` (iteration `n+1` would be the
  one that observes `done` and exits).
-/

namespace SoLoud

/-- libctru `ndspWaveBuf` descriptor record, restricted to the fields the
backend touches: `data_vaddr` (aliased by the union member `data_pcm16`)
is the address of the sample data, `nsamples` the sample count, `status`
the playback status code. -/
structure WaveBuf where
  data_vaddr : Nat
  nsamples : Nat
  status : Nat
  deriving DecidableEq

/-- libctru wavebuf status code `NDSP_WBUF_DONE` (numeric value as in
libctru; only the symbolic identity matters here). -/
def NDSP_WBUF_DONE : Nat := 3

/-- The heap of `ndspWaveBuf` records, indexed by pointer value. -/
def Heap : Type := Nat → WaveBuf

/-- Pointwise heap update: a write of record `v` through pointer `a`. -/
def heapWrite (h : Heap) (a : Nat) (v : WaveBuf) : Heap :=
  fun x => if x = a then v else h x

/-- The `N3Data` struct: the shared streaming state of the backend.
`wavebufs` models the member `ndspWaveBuf *wavebufs[2]`, an array of two
POINTERS to descriptor records, as a function from array index to pointer
value (only indices 0 and 1 are ever used).  The `soloud` mixer handle,
the `LightEvent` and the thread id carry no data relevant to the claims;
the calls through them appear in the trace. -/
structure N3Data where
  done : Bool
  samplesPerWavebuf : Nat
  numChannels : Nat
  audioBuffer : Nat
  wavebufs : Nat → Nat

/-- Engine-visible state: `Soloud::mBackendData` (the session, `none` when
`NULL`), whether `mBackendCleanupFunc` is registered, and the descriptor
heap. -/
structure SysState where
  mBackendData : Option N3Data
  cleanupRegistered : Bool
  descHeap : Heap

/-- One trace entry per call the backend makes into an external
collaborator.  Fixed constant arguments of the hardware-configuration
calls (`NDSP_OUTPUT_STEREO`, `NDSP_INTERP_POLYPHASE`,
`NDSP_FORMAT_STEREO_PCM16`) are left implicit in the constructor.
`ndspExit` is the operation that tells the hardware subsystem to stop
delivering completion callbacks; it is part of the modelled API so that
its absence from a trace can be stated. -/
inductive Event where
  | ndspInit : Event
  | ndspChnReset (ch : Nat) : Event
  | ndspSetOutputMode : Event
  | ndspChnSetInterp (ch : Nat) : Event
  | ndspChnSetRate (ch : Nat) (rate : Nat) : Event
  | ndspChnSetFormat (ch : Nat) : Event
  | newN3Data : Event
  | linearAlloc (size : Nat) (addr : Nat) : Event
  | postinit (rate : Nat) (bufSize : Nat) (flags : Nat) (channels : Nat) : Event
  | setCallback : Event
  | threadCreate (prio : Int) : Event
  | mix (dst : Nat) (samples : Nat) : Event
  | setNsamples (desc : Nat) (n : Nat) : Event
  | waveBufAdd (ch : Nat) (bufId : Nat) (desc : Nat) : Event
  | flush (addr : Nat) (bytes : Nat) : Event
  | wait : Event
  | signal : Event
  | setDone : Event
  | threadJoin : Event
  | freeWavebufs : Event
  | freeAudioBuffer (addr : Nat) : Event
  | deleteData : Event
  | ndspExit : Event
  deriving DecidableEq

/-- SoLoud result codes used by this backend (`soloud.h` is outside the
given sources; the backend returns the literals `INVALID_PARAMETER`,
`UNKNOWN_ERROR` and `0`). -/
inductive SoLoudResult where
  | ok : SoLoudResult
  | INVALID_PARAMETER : SoLoudResult
  | UNKNOWN_ERROR : SoLoudResult
  deriving DecidableEq

/-- `n3ds_audioCallback` (lines 67-76): the NDSP completion callback.  If
the `done` flag is set it returns at once; otherwise it signals the light
event.  It never mutates the session, so the session is returned
unchanged together with the trace of the call. -/
def n3ds_audioCallback (data : N3Data) : N3Data × List Event :=
  if data.done then (data, [])
  else (data, [Event.signal])

/-- `n3ds_cleanup` (lines 78-99): no-op when `mBackendData` is `NULL`;
otherwise sets `done`, signals the event, joins the thread with an
unbounded wait, frees the wavebuf array storage and the audio buffer,
deletes the session record and clears `mBackendData`.  The source makes
no call that stops completion-callback delivery (no `ndspExit`, no
callback re-registration). -/
def n3ds_cleanup (s : SysState) : SysState × List Event :=
  match s.mBackendData with
  | none => (s, [])
  | some data =>
    ({ s with mBackendData := none },
     [Event.setDone, Event.signal, Event.threadJoin,
      Event.freeWavebufs, Event.freeAudioBuffer data.audioBuffer,
      Event.deleteData])

/-- Producer-thread priority computation of `n3ds_homebrew_init`
(lines 175-181): take the queried caller priority, subtract one, then
clamp sequentially at the lower bound `0x18` and the upper bound `0x3F`. -/
def clampedPriority (p : Int) : Int :=
  let priority := p - 1
  let priority := if priority < 0x18 then 0x18 else priority
  if priority > 0x3F then 0x3F else priority

/-- Environment of one `n3ds_homebrew_init` call: whether `ndspInit()`
succeeds, the address returned by `linearAlloc` (0 models a null return),
and the caller priority delivered by `svcGetThreadPriority`. -/
structure InitEnv where
  ndspInitOk : Bool
  linearAllocAddr : Nat
  callerPriority : Int

/-- `n3ds_homebrew_init` (lines 124-188).  Control flow of the source:
reject unsupported parameters before any other action; call `ndspInit`
and fail on error; configure the channel; allocate and zero `N3Data`
(`memset` leaves both `wavebufs` pointers null); `linearAlloc` the sample
block (result unchecked); set the scalar fields; run the wavebuf
initialisation loop, which writes `data_vaddr` (advancing by
`wavebufSize / sizeof(int16_t)` elements, i.e. `wavebufSize` bytes) and
`status = NDSP_WBUF_DONE` through each stored pointer — both of which are
the null pointer, so both writes hit heap address 0; store the backend
data and cleanup function; call `postinit_internal`; register the
callback; create the thread at the clamped priority; return 0. -/
def n3ds_homebrew_init (env : InitEnv) (aFlags aSamplerate aBuffer aChannels : Nat)
    (s : SysState) : SoLoudResult × SysState × List Event :=
  if aSamplerate ≠ 44100 ∨ aChannels ≠ 2 then
    (SoLoudResult.INVALID_PARAMETER, s, [])
  else if env.ndspInitOk = false then
    (SoLoudResult.UNKNOWN_ERROR, s, [Event.ndspInit])
  else
    let wavebufSize := aChannels * aBuffer * 2
    let bufferSize := wavebufSize * 2
    let data : N3Data :=
      { done := false
        samplesPerWavebuf := aBuffer
        numChannels := aChannels
        audioBuffer := env.linearAllocAddr
        wavebufs := fun _ => 0 }
    let h1 := heapWrite s.descHeap (data.wavebufs 0)
      { s.descHeap (data.wavebufs 0) with
          data_vaddr := data.audioBuffer, status := NDSP_WBUF_DONE }
    let h2 := heapWrite h1 (data.wavebufs 1)
      { h1 (data.wavebufs 1) with
          data_vaddr := data.audioBuffer + (wavebufSize / 2) * 2
          status := NDSP_WBUF_DONE }
    (SoLoudResult.ok,
     { mBackendData := some data, cleanupRegistered := true, descHeap := h2 },
     [Event.ndspInit, Event.ndspChnReset 0, Event.ndspSetOutputMode,
      Event.ndspChnSetInterp 0, Event.ndspChnSetRate 0 aSamplerate,
      Event.ndspChnSetFormat 0, Event.newN3Data,
      Event.linearAlloc bufferSize env.linearAllocAddr,
      Event.postinit aSamplerate (aBuffer * aChannels) aFlags aChannels,
      Event.setCallback,
      Event.threadCreate (clampedPriority env.callerPriority)])

/-- One iteration of the `n3ds_thread` while-loop body (lines 107-120),
for the current buffer index: read the descriptor pointer from the array,
mix `samplesPerWavebuf` samples into its `data_vaddr`, store `nsamples`,
submit the descriptor with `ndspChnWaveBufAdd(0, buffer)`, flush
`samplesPerWavebuf * numChannels * sizeof(int16_t)` bytes at
`data_pcm16` (the union alias of `data_vaddr`), then wait on the light
event.  The `bufId` recorded in the submission event is the array index
the submitted pointer was read from. -/
def threadStep (data : N3Data) (h : Heap) (buf_id : Nat) : Heap × List Event :=
  let p := data.wavebufs buf_id
  let dst := (h p).data_vaddr
  let h2 := heapWrite h p { h p with nsamples := data.samplesPerWavebuf }
  (h2,
   [Event.mix dst data.samplesPerWavebuf,
    Event.setNsamples p data.samplesPerWavebuf,
    Event.waveBufAdd 0 buf_id p,
    Event.flush (h2 p).data_vaddr
      (data.samplesPerWavebuf * data.numChannels * 2),
    Event.wait])

/-- `n3ds_thread` (lines 101-122) run for `n` iterations from buffer
index `buf_id` (the source starts at `buf_id = 0` and toggles with
`buf_id ^= 1` after each submission). -/
def n3ds_thread (data : N3Data) (h : Heap) (buf_id : Nat) : Nat → Heap × List Event
  | 0 => (h, [])
  | n + 1 =>
    let st := threadStep data h buf_id
    let rest := n3ds_thread data st.1 (buf_id ^^^ 1) n
    (rest.1, st.2 ++ rest.2)

/-- The buffer indices of the hardware submissions in a trace, in order. -/
def submittedIndices (t : List Event) : List Nat :=
  t.filterMap fun e =>
    match e with
    | Event.waveBufAdd _ b _ => some b
    | _ => none

/-- The per-call sample counts requested from the mixer, in order. -/
def mixCounts (t : List Event) : List Nat :=
  t.filterMap fun e =>
    match e with
    | Event.mix _ n => some n
    | _ => none

/-- The sample counts stored into submitted descriptors, in order. -/
def nsamplesSet (t : List Event) : List Nat :=
  t.filterMap fun e =>
    match e with
    | Event.setNsamples _ n => some n
    | _ => none

/-- The byte lengths of the cache flushes in a trace, in order. -/
def flushBytes (t : List Event) : List Nat :=
  t.filterMap fun e =>
    match e with
    | Event.flush _ n => some n
    | _ => none

/-- Recogniser for mixer render events. -/
def isMix : Event → Bool
  | Event.mix _ _ => true
  | _ => false

/-- Recogniser for hardware-queue submission events. -/
def isSubmit : Event → Bool
  | Event.waveBufAdd _ _ _ => true
  | _ => false

/-- Recogniser for cache-flush events. -/
def isFlush : Event → Bool
  | Event.flush _ _ => true
  | _ => false

/-- Recogniser for light-event wait events. -/
def isWait : Event → Bool
  | Event.wait => true
  | _ => false

/-- A concrete all-zero descriptor heap, used for concrete evaluations. -/
def sampleHeap : Heap := fun _ => { data_vaddr := 0, nsamples := 0, status := 0 }

/-- A concrete session record, as produced by a successful
`n3ds_homebrew_init` with `aBuffer = 1024`, `aChannels = 2` and a linear
allocation at address 8192. -/
def sampleData : N3Data :=
  { done := false, samplesPerWavebuf := 1024, numChannels := 2
    audioBuffer := 8192, wavebufs := fun _ => 0 }

/-- A concrete engine state holding `sampleData` as its session. -/
def sampleSession : SysState :=
  { mBackendData := some sampleData, cleanupRegistered := true, descHeap := sampleHeap }

/-- A concrete engine state with no session (`mBackendData == NULL`). -/
def emptySession : SysState :=
  { mBackendData := none, cleanupRegistered := false, descHeap := sampleHeap }

/-- C2: for every invocation of the completion callback on a session, the
session itself is unchanged; when the shutdown flag is true the callback
returns immediately with no observable effect (in particular no wake
signal); otherwise its only effect is the single wake signal. -/
theorem C2_callback_behavior (data : N3Data) :
    (n3ds_audioCallback data).1 = data ∧
    (data.done = true → (n3ds_audioCallback data).2 = []) ∧
    (data.done = false → (n3ds_audioCallback data).2 = [Event.signal]) := by
  cases h : data.done <;> simp [n3ds_audioCallback, h]

/-- Witness for C2 at concrete sessions with the shutdown flag set and
unset. -/
theorem C2_callback_behavior_witness :
    ({ sampleData with done := true }).done = true ∧
    (n3ds_audioCallback { sampleData with done := true }).2 = [] ∧
    sampleData.done = false ∧
    (n3ds_audioCallback sampleData).2 = [Event.signal] :=
  ⟨rfl, (C2_callback_behavior { sampleData with done := true }).2.1 rfl,
   rfl, (C2_callback_behavior sampleData).2.2 rfl⟩

/-- C6: whenever the sample rate is not 44100 or the channel count is not
2, `n3ds_homebrew_init` returns `INVALID_PARAMETER`, leaves the engine
state exactly as it was, and performs no external call at all (empty
trace: no hardware operation, no allocation). -/
theorem C6_invalid_params (env : InitEnv) (aFlags aSamplerate aBuffer aChannels : Nat)
    (s : SysState) (hbad : aSamplerate ≠ 44100 ∨ aChannels ≠ 2) :
    n3ds_homebrew_init env aFlags aSamplerate aBuffer aChannels s =
      (SoLoudResult.INVALID_PARAMETER, s, []) := by
  unfold n3ds_homebrew_init
  rw [if_pos hbad]

/-- Witness for C6 at `aSamplerate = 48000`. -/
theorem C6_invalid_params_witness :
    ((48000 : Nat) ≠ 44100 ∨ (2 : Nat) ≠ 2) ∧
    n3ds_homebrew_init ⟨true, 8192, 48⟩ 0 48000 1024 2 emptySession =
      (SoLoudResult.INVALID_PARAMETER, emptySession, []) :=
  ⟨Or.inl (by decide),
   C6_invalid_params ⟨true, 8192, 48⟩ 0 48000 1024 2 emptySession (Or.inl (by decide))⟩

/-- C7: calling `n3ds_cleanup` twice in succession is safe: the first
call always leaves `mBackendData` cleared, and the second call then
returns the state unchanged with an empty trace — no join, no free, no
delete. -/
theorem C7_cleanup_idempotent (s : SysState) :
    (n3ds_cleanup s).1.mBackendData = none ∧
    n3ds_cleanup (n3ds_cleanup s).1 = ((n3ds_cleanup s).1, []) := by
  cases h : s.mBackendData <;> simp [n3ds_cleanup, h]

/-- C8: the producer thread priority is the queried caller priority minus
one, clamped into the valid hardware range `[0x18, 0x3F]`: the minimum
when `p - 1` is below it, the maximum when `p - 1` is above it, and
`p - 1` otherwise.  `clampedPriority` is exactly the value passed to
`threadCreate` by `n3ds_homebrew_init`. -/
theorem C8_priority_clamp (p : Int) :
    (p - 1 < 0x18 → clampedPriority p = 0x18) ∧
    (p - 1 > 0x3F → clampedPriority p = 0x3F) ∧
    (0x18 ≤ p - 1 → p - 1 ≤ 0x3F → clampedPriority p = p - 1) := by
  simp only [clampedPriority]
  refine ⟨fun h => ?_, fun h => ?_, fun h1 h2 => ?_⟩ <;> split_ifs <;> omega

/-- Witness for C8 in all three clamping regimes. -/
theorem C8_priority_clamp_witness :
    ((10 : Int) - 1 < 0x18 ∧ clampedPriority 10 = 0x18) ∧
    ((100 : Int) - 1 > 0x3F ∧ clampedPriority 100 = 0x3F) ∧
    ((0x18 : Int) ≤ (48 : Int) - 1 ∧ (48 : Int) - 1 ≤ 0x3F ∧ clampedPriority 48 = 47) :=
  ⟨⟨by decide, (C8_priority_clamp 10).1 (by decide)⟩,
   ⟨by decide, (C8_priority_clamp 100).2.1 (by decide)⟩,
   ⟨by decide, by decide, (C8_priority_clamp 48).2.2 (by decide) (by decide)⟩⟩

/-- C10: with valid parameters and a successful `ndspInit`, the result of
`n3ds_homebrew_init` is `0` (success) for every possible address returned
by `linearAlloc`, including the null address 0: the allocation result is
never checked, so an allocation failure is not reported as an error. -/
theorem C10_alloc_unchecked (aFlags aBuffer allocAddr : Nat) (prio : Int) (s : SysState) :
    (n3ds_homebrew_init ⟨true, allocAddr, prio⟩ aFlags 44100 aBuffer 2 s).1 =
      SoLoudResult.ok := by
  simp [n3ds_homebrew_init]

/-- C3 counterexample: with a session present, `n3ds_cleanup` does
destroy the session record (`deleteData` occurs in its trace) but its
trace contains no operation that tells the hardware subsystem to stop
delivering completion callbacks — neither `ndspExit` nor any
`setCallback` re-registration — refuting the conjunct that destruction
happens only after such an operation. -/
theorem C3_no_callback_stop :
    Event.deleteData ∈ (n3ds_cleanup sampleSession).2 ∧
    Event.ndspExit ∉ (n3ds_cleanup sampleSession).2 ∧
    Event.setCallback ∉ (n3ds_cleanup sampleSession).2 := by
  decide

/-- C3 amended: when shutdown runs with an existing session, the trace of
`n3ds_cleanup` is exactly: set the shutdown flag, raise the wake signal,
join the producer thread (unbounded wait), and only then free the wavebuf
descriptor storage, free the sample storage block and delete the session
record; the backend-state reference is cleared in the returned state.
The join (index 2 of the trace) strictly precedes every release (indices
3, 4, 5); no hardware-subsystem stop operation occurs at all. -/
theorem C3_cleanup_order (s : SysState) (data : N3Data)
    (hs : s.mBackendData = some data) :
    n3ds_cleanup s =
      ({ s with mBackendData := none },
       [Event.setDone, Event.signal, Event.threadJoin,
        Event.freeWavebufs, Event.freeAudioBuffer data.audioBuffer,
        Event.deleteData]) := by
  unfold n3ds_cleanup
  rw [hs]

/-- Witness for the amended C3 at a concrete session. -/
theorem C3_cleanup_order_witness :
    sampleSession.mBackendData = some sampleData ∧
    n3ds_cleanup sampleSession =
      ({ mBackendData := none, cleanupRegistered := true, descHeap := sampleHeap },
       [Event.setDone, Event.signal, Event.threadJoin,
        Event.freeWavebufs, Event.freeAudioBuffer 8192,
        Event.deleteData]) :=
  ⟨rfl, C3_cleanup_order sampleSession sampleData rfl⟩

/-- C4: with valid parameters and a successful hardware init,
`n3ds_homebrew_init` reports success, yet the two `wavebufs` entries of
the stored session are both the null pointer (they are zeroed by `memset`
and never pointed at allocated descriptor records), so the session does
NOT hold two descriptor records: both field writes of the
initialisation loop go through the same null pointer, and the single
record at address 0 ends up referencing the second half of the sample
block (address 8192 + 4096, not the first half at 8192), with status
`NDSP_WBUF_DONE`. -/
theorem C4_null_descriptor_records :
    (n3ds_homebrew_init ⟨true, 8192, 48⟩ 0 44100 1024 2 emptySession).1 =
      SoLoudResult.ok ∧
    ((n3ds_homebrew_init ⟨true, 8192, 48⟩ 0 44100 1024 2 emptySession).2.1.mBackendData.map
        fun d => (d.wavebufs 0, d.wavebufs 1)) = some (0, 0) ∧
    ((n3ds_homebrew_init ⟨true, 8192, 48⟩ 0 44100 1024 2 emptySession).2.1.descHeap 0).data_vaddr
      = 8192 + 4096 ∧
    ((n3ds_homebrew_init ⟨true, 8192, 48⟩ 0 44100 1024 2 emptySession).2.1.descHeap 0).data_vaddr
      ≠ 8192 ∧
    ((n3ds_homebrew_init ⟨true, 8192, 48⟩ 0 44100 1024 2 emptySession).2.1.descHeap 0).status
      = NDSP_WBUF_DONE := by
  refine ⟨rfl, rfl, rfl, by decide, rfl⟩

/-- C5 counterexample: in a concrete producer-loop iteration the
submission to the hardware queue (`ndspChnWaveBufAdd`, trace index 2)
strictly precedes the cache flush (`DSP_FlushDataCache`, trace index 3),
and both events do occur — refuting the claim that the flush happens
before the submission. -/
theorem C5_flush_after_submit :
    (threadStep sampleData sampleHeap 0).2.findIdx isSubmit <
      (threadStep sampleData sampleHeap 0).2.findIdx isFlush ∧
    (threadStep sampleData sampleHeap 0).2.findIdx isFlush <
      (threadStep sampleData sampleHeap 0).2.length := by
  decide

/-- C5 amended: in every iteration of the producer loop, the
cache-coherency flush of the rendered buffer is performed after the
render of that buffer and after (immediately following) the submission of
that buffer to the hardware queue, before the index toggle and the wait:
the iteration trace orders render, sample-count store, submission, flush,
wait. -/
theorem C5_flush_position (data : N3Data) (h : Heap) (b : Nat) :
    (threadStep data h b).2.findIdx isMix < (threadStep data h b).2.findIdx isSubmit ∧
    (threadStep data h b).2.findIdx isSubmit < (threadStep data h b).2.findIdx isFlush ∧
    (threadStep data h b).2.findIdx isFlush < (threadStep data h b).2.findIdx isWait ∧
    (threadStep data h b).2.findIdx isWait < (threadStep data h b).2.length := by
  simp [threadStep, List.findIdx_cons, isMix, isSubmit, isFlush, isWait]

/-- The strict 0/1 alternation sequence of length `n` starting at `b`. -/
def altSeq (b : Nat) : Nat → List Nat
  | 0 => []
  | n + 1 => b :: altSeq (b ^^^ 1) n

theorem xor_one_of_lt_two (b : Nat) (hb : b < 2) : b ^^^ 1 = 1 - b := by
  interval_cases b <;> rfl

theorem submittedIndices_append (a b : List Event) :
    submittedIndices (a ++ b) = submittedIndices a ++ submittedIndices b :=
  List.filterMap_append a b _

theorem mixCounts_append (a b : List Event) :
    mixCounts (a ++ b) = mixCounts a ++ mixCounts b :=
  List.filterMap_append a b _

theorem nsamplesSet_append (a b : List Event) :
    nsamplesSet (a ++ b) = nsamplesSet a ++ nsamplesSet b :=
  List.filterMap_append a b _

theorem flushBytes_append (a b : List Event) :
    flushBytes (a ++ b) = flushBytes a ++ flushBytes b :=
  List.filterMap_append a b _

theorem submittedIndices_step (d : N3Data) (h : Heap) (b : Nat) :
    submittedIndices (threadStep d h b).2 = [b] := rfl

theorem mixCounts_step (d : N3Data) (h : Heap) (b : Nat) :
    mixCounts (threadStep d h b).2 = [d.samplesPerWavebuf] := rfl

theorem nsamplesSet_step (d : N3Data) (h : Heap) (b : Nat) :
    nsamplesSet (threadStep d h b).2 = [d.samplesPerWavebuf] := rfl

theorem flushBytes_step (d : N3Data) (h : Heap) (b : Nat) :
    flushBytes (threadStep d h b).2 = [d.samplesPerWavebuf * d.numChannels * 2] := rfl

theorem thread_submitted_eq_altSeq (data : N3Data) :
    ∀ (n : Nat) (h : Heap) (b : Nat),
      submittedIndices (n3ds_thread data h b n).2 = altSeq b n
  | 0, h, b => by simp [n3ds_thread, submittedIndices, altSeq]
  | n + 1, h, b => by
    simp only [n3ds_thread]
    rw [submittedIndices_append, submittedIndices_step,
      thread_submitted_eq_altSeq data n (threadStep data h b).1 (b ^^^ 1), altSeq]
    simp

theorem altSeq_eq_range_map :
    ∀ (n b : Nat), b < 2 →
      altSeq b n = (List.range n).map (fun i => (b + i) % 2)
  | 0, b, _ => by simp [altSeq]
  | n + 1, b, hb => by
    have hb2 : b ^^^ 1 < 2 := by rw [xor_one_of_lt_two b hb]; omega
    rw [altSeq, altSeq_eq_range_map n (b ^^^ 1) hb2, List.range_succ_eq_map,
      List.map_cons, List.map_map, xor_one_of_lt_two b hb]
    have h0 : (b + 0) % 2 = b := by omega
    rw [h0]
    refine congrArg (List.cons b) (List.map_congr_left fun i _ => ?_)
    simp only [Function.comp_apply]
    omega

/-- C1: over any number of producer-loop iterations starting from the
initial index 0, the sequence of buffer indices submitted to the hardware
queue is exactly `0, 1, 0, 1, ...` (the i-th submission uses index
`i % 2`): no index is submitted twice in a row and no index is skipped. -/
theorem C1_alternating_submission (data : N3Data) (h : Heap) (n : Nat) :
    submittedIndices (n3ds_thread data h 0 n).2 =
      (List.range n).map (fun i => i % 2) := by
  rw [thread_submitted_eq_altSeq data n h 0, altSeq_eq_range_map n 0 (by decide)]
  simp

theorem thread_counts (data : N3Data) :
    ∀ (n : Nat) (h : Heap) (b : Nat),
      mixCounts (n3ds_thread data h b n).2 =
        List.replicate n data.samplesPerWavebuf ∧
      nsamplesSet (n3ds_thread data h b n).2 =
        List.replicate n data.samplesPerWavebuf ∧
      flushBytes (n3ds_thread data h b n).2 =
        List.replicate n (data.samplesPerWavebuf * data.numChannels * 2)
  | 0, h, b => by simp [n3ds_thread, mixCounts, nsamplesSet, flushBytes]
  | n + 1, h, b => by
    obtain ⟨h1, h2, h3⟩ := thread_counts data n (threadStep data h b).1 (b ^^^ 1)
    simp only [n3ds_thread]
    refine ⟨?_, ?_, ?_⟩
    · rw [mixCounts_append, mixCounts_step, h1, List.replicate_succ]; simp
    · rw [nsamplesSet_append, nsamplesSet_step, h2, List.replicate_succ]; simp
    · rw [flushBytes_append, flushBytes_step, h3, List.replicate_succ]; simp

/-- C9: for a stream successfully initialised with sample rate 44100,
channel count 2 and buffer size `N` (so the stored session has
`samplesPerWavebuf = N` and `numChannels = 2`), every producer cycle
requests exactly `N` samples per channel from the mixer, stores exactly
`N` as the submitted descriptor sample count, and flushes exactly
`N * 2 * 2` bytes of cache, in every one of any number of iterations. -/
theorem C9_render_counts (env : InitEnv) (aFlags N : Nat) (s : SysState) (data : N3Data)
    (henv : env.ndspInitOk = true)
    (hdata : (n3ds_homebrew_init env aFlags 44100 N 2 s).2.1.mBackendData = some data)
    (h : Heap) (b n : Nat) :
    mixCounts (n3ds_thread data h b n).2 = List.replicate n N ∧
    nsamplesSet (n3ds_thread data h b n).2 = List.replicate n N ∧
    flushBytes (n3ds_thread data h b n).2 = List.replicate n (N * 2 * 2) := by
  simp [n3ds_homebrew_init, henv] at hdata
  have hN : data.samplesPerWavebuf = N := by rw [← hdata]
  have hC : data.numChannels = 2 := by rw [← hdata]
  have hmain := thread_counts data n h b
  rw [hN, hC] at hmain
  exact hmain

/-- Witness for C9 at `N = 1024` over two iterations. -/
theorem C9_render_counts_witness :
    (⟨true, 8192, 48⟩ : InitEnv).ndspInitOk = true ∧
    (n3ds_homebrew_init ⟨true, 8192, 48⟩ 0 44100 1024 2 emptySession).2.1.mBackendData =
      some sampleData ∧
    mixCounts (n3ds_thread sampleData sampleHeap 0 2).2 = List.replicate 2 1024 ∧
    nsamplesSet (n3ds_thread sampleData sampleHeap 0 2).2 = List.replicate 2 1024 ∧
    flushBytes (n3ds_thread sampleData sampleHeap 0 2).2 = List.replicate 2 (1024 * 2 * 2) := by
  refine ⟨rfl, rfl, ?_⟩
  exact C9_render_counts ⟨true, 8192, 48⟩ 0 1024 emptySession sampleData rfl rfl
    sampleHeap 0 2

end SoLoud
